import Mathlib

/-!
Verification of the SeniorSkill peer-learning platform's database core.

The authoritative source is the final schema migration (the one that drops and
recreates every table): the table definitions, the row-level security policies,
and the `award_completion_xp` trigger fired by `enrollment_completion_trigger`
on every `UPDATE` of `enrollments`.  The embedding below renders:

  * rows of the six tables the claims touch (`users`, `courses`, `enrollments`,
    `reviews`, `certificates`, `mentor_requests`) as Lean structures — `uuid`
    columns become `Nat` identifiers, nullable columns become `Option`,
    `timestamptz` instants become abstract `Option Nat` values, and columns
    never read by any policy or trigger (profile text fields, prices,
    created-at stamps, ...) are omitted;
  * each policy's `USING` / `WITH CHECK` expression as a boolean predicate over
    the acting principal (`auth.uid()`, a `Nat`) and the candidate row, with
    policy subqueries evaluated over the raw tables;
  * the trigger function `award_completion_xp` and the completion `UPDATE`
    statement that fires it, with SQL semantics made explicit: the `UPDATE
    users SET xp_points = xp_points + 50, level_number = FLOOR((xp_points +
    50) / 100) + 1` reads the old `xp_points` in both assignments, Postgres
    integer division truncates toward zero (`Int.tdiv`), `FLOOR` of an integer
    is the identity, and `INSERT INTO certificates ... SELECT ... FROM courses
    c WHERE c.id = NEW.course_id` inserts one row per matching course row
    (zero rows, with no error, when none matches);
  * the store's request interface, modelled from the spec where the engine
    itself is external (see `runWrite` / `runSelect`).
-/

namespace SeniorSkill

/-- Role of a user: `role text DEFAULT 'student' CHECK (role IN ('student', 'mentor', 'admin'))`. -/
inductive Role where
  | student
  | mentor
  | admin
deriving DecidableEq, Repr

/-- Status of a mentor request: `status text DEFAULT 'pending' CHECK (status IN ('pending', 'approved', 'rejected'))`. -/
inductive MRStatus where
  | pending
  | approved
  | rejected
deriving DecidableEq, Repr

/-- Row of `users`.  `id uuid PRIMARY KEY`, `email text UNIQUE NOT NULL`,
`role`, `year_of_study integer DEFAULT 1`, `xp_points integer DEFAULT 0`,
`level_number integer DEFAULT 1`.  Profile columns (`full_name`, `bio`,
social links, `total_earnings`, timestamps, ...) are never read by any policy
or trigger and are omitted. -/
structure UserRow where
  id : Nat
  email : String
  role : Role
  year_of_study : Int
  xp_points : Int
  level_number : Int
deriving DecidableEq, Repr

/-- Row of `courses`.  `id uuid PRIMARY KEY`, `mentor_id uuid REFERENCES
users(id)` (nullable), `is_active boolean DEFAULT true`.  Descriptive columns
are omitted. -/
structure Course where
  id : Nat
  mentor_id : Option Nat
  is_active : Bool
deriving DecidableEq, Repr

/-- Row of `enrollments`.  `id uuid PRIMARY KEY`, `student_id` and `course_id`
nullable foreign keys, `completed_at timestamptz` (nullable), `is_completed
boolean DEFAULT false`. -/
structure Enrollment where
  id : Nat
  student_id : Option Nat
  course_id : Option Nat
  completed_at : Option Nat
  is_completed : Bool
deriving DecidableEq, Repr

/-- Row of `reviews`.  `student_id`, `course_id`, `mentor_id` nullable foreign
keys, `rating integer NOT NULL CHECK (rating >= 1 AND rating <= 5)`. -/
structure ReviewRow where
  id : Nat
  student_id : Option Nat
  course_id : Option Nat
  mentor_id : Option Nat
  rating : Int
deriving DecidableEq, Repr

/-- Row of `certificates`.  `student_id`, `course_id`, `mentor_id` nullable
foreign keys, `certificate_id text UNIQUE NOT NULL`. -/
structure Certificate where
  id : Nat
  student_id : Option Nat
  course_id : Option Nat
  mentor_id : Option Nat
  certificate_id : String
deriving DecidableEq, Repr

/-- Row of `mentor_requests`.  `student_id uuid REFERENCES users(id)`
(nullable), `status` defaulting to pending, `reviewed_by uuid REFERENCES
users(id)` (nullable), `reviewed_at timestamptz` (nullable). -/
structure MentorRequest where
  id : Nat
  student_id : Option Nat
  status : MRStatus
  reviewed_by : Option Nat
  reviewed_at : Option Nat
deriving DecidableEq, Repr

/-- The entity store: the six tables the claims are about, each a list of
rows. -/
structure DB where
  users : List UserRow
  courses : List Course
  enrollments : List Enrollment
  reviews : List ReviewRow
  certificates : List Certificate
  mentor_requests : List MentorRequest
deriving DecidableEq, Repr

/-! ## Progression pipeline

`award_completion_xp` is the trigger function; `enrollment_completion_trigger`
is `AFTER UPDATE ON enrollments FOR EACH ROW EXECUTE FUNCTION
award_completion_xp()`, so the function runs once per updated enrollment row
with that row's `OLD` and `NEW` records.  The random certificate token
`UPPER(SUBSTRING(gen_random_uuid()::text, 1, 8))` is threaded in as the
abstract parameter `fresh`. -/

/-- One firing of the trigger function `award_completion_xp` on an updated
enrollment row (`old` = `OLD`, `new` = `NEW`).  When `NEW.is_completed = true
AND OLD.is_completed = false`: `UPDATE users SET xp_points = xp_points + 50,
level_number = FLOOR((xp_points + 50) / 100) + 1 WHERE id = NEW.student_id`
(both right-hand sides read the old `xp_points`; integer division truncates
toward zero), then `INSERT INTO certificates ... SELECT NEW.student_id,
NEW.course_id, c.mentor_id, 'CERT-' || ... FROM courses c WHERE c.id =
NEW.course_id` — one certificate row per matching course row, zero rows and no
error when none matches.  Otherwise the function does nothing. -/
def award_completion_xp (old new : Enrollment) (fresh : String) (db : DB) : DB :=
  if new.is_completed && !old.is_completed then
    { db with
        users := db.users.map (fun u =>
          if some u.id == new.student_id then
            { u with
                xp_points := u.xp_points + 50,
                level_number := Int.tdiv (u.xp_points + 50) 100 + 1 }
          else u),
        certificates := db.certificates ++
          (db.courses.filter (fun c => some c.id == new.course_id)).map (fun c =>
            { id := 0,
              student_id := new.student_id,
              course_id := new.course_id,
              mentor_id := c.mentor_id,
              certificate_id := "CERT-" ++ fresh }) }
  else db

/-- The completion update: `UPDATE enrollments SET is_completed = true WHERE id
= eid`, after which `enrollment_completion_trigger` fires
`award_completion_xp` once for each updated row (`id` is the primary key, so
at most one row matches in a well-formed store). -/
def completionUpdate (eid : Nat) (fresh : String) (db : DB) : DB :=
  (db.enrollments.filter (fun e => e.id == eid)).foldl
    (fun d old => award_completion_xp old { old with is_completed := true } fresh d)
    { db with
        enrollments := db.enrollments.map (fun e =>
          if e.id == eid then { e with is_completed := true } else e) }

/-- Function `calculate_level` from the earlier schema revision:
`GREATEST(1, (xp_points / 100) + 1)`, with truncating integer division. -/
def calculate_level (xp_points : Int) : Int :=
  max 1 (Int.tdiv xp_points 100 + 1)

/-- The spec's level formula: `level_number == max(1, floor(xp_points/100)+1)`
with mathematical floor, i.e. `Int.fdiv`. -/
def levelInvariant (u : UserRow) : Prop :=
  u.level_number = max 1 (Int.fdiv u.xp_points 100 + 1)

instance (u : UserRow) : Decidable (levelInvariant u) := by
  unfold levelInvariant; infer_instance

/-! ## Access-control layer

One boolean predicate per policy expression of the final schema, over the
acting principal `self` (`auth.uid()`) and the candidate row; `EXISTS
(SELECT ...)` subqueries become `List.any` over the raw referenced table.
SQL `NULL = x` is never true, which `some _ == none`/`none == some _`
reproduces. -/

/-- Policy "Users can read all profiles": `USING (true)`. -/
def usersSelect (_self : Nat) (_u : UserRow) : Bool := true

/-- Policy "Anyone can read active courses": `USING (is_active = true)`. -/
def coursesSelect (_self : Nat) (c : Course) : Bool := c.is_active

/-- Policies "Students can read own enrollments" (`student_id = auth.uid()`)
or "Mentors can read enrollments for their courses" (`EXISTS (SELECT 1 FROM
courses WHERE id = course_id AND mentor_id = auth.uid())`); permissive
policies on one table combine disjunctively. -/
def enrollmentsSelect (db : DB) (self : Nat) (e : Enrollment) : Bool :=
  e.student_id == some self ||
  db.courses.any (fun c => some c.id == e.course_id && c.mentor_id == some self)

/-- Policy "Anyone can read reviews": `USING (true)`. -/
def reviewsSelect (_self : Nat) (_r : ReviewRow) : Bool := true

/-- Policies "Students can read own certificates" (`student_id = auth.uid()`)
or "Mentors can read certificates for their courses" (`mentor_id =
auth.uid()`). -/
def certificatesSelect (self : Nat) (c : Certificate) : Bool :=
  c.student_id == some self || c.mentor_id == some self

/-- Policy "Students can read own requests": `USING (student_id = auth.uid())`. -/
def mentorRequestsSelect (self : Nat) (m : MentorRequest) : Bool :=
  m.student_id == some self

/-- The tables of the modelled store. -/
inductive Table where
  | users
  | courses
  | enrollments
  | reviews
  | certificates
  | mentorRequests
deriving DecidableEq, Repr

/-- A row of any modelled table, for heterogeneous read results. -/
inductive Row where
  | user : UserRow → Row
  | course : Course → Row
  | enrollment : Enrollment → Row
  | review : ReviewRow → Row
  | certificate : Certificate → Row
  | mentorRequest : MentorRequest → Row
deriving DecidableEq, Repr

/-- The read predicate of each table: the disjunction of its `FOR SELECT`
policies, false on a row of the wrong table. -/
def readPermit (db : DB) (self : Nat) : Table → Row → Bool
  | .users, .user u => usersSelect self u
  | .courses, .course c => coursesSelect self c
  | .enrollments, .enrollment e => enrollmentsSelect db self e
  | .reviews, .review r => reviewsSelect self r
  | .certificates, .certificate c => certificatesSelect self c
  | .mentorRequests, .mentorRequest m => mentorRequestsSelect self m
  | _, _ => false

/-- Modelled from the spec: the row-level-security engine that evaluates the
policies is the external managed store, not code of this repository; per the
spec a read denied on a row silently filters that row out — "a denied read
returns an empty result set, not an error" — so a `SELECT` returns exactly the
rows whose table's read predicate accepts and can never fail. -/
def runSelect (db : DB) (self : Nat) : Table → List Row
  | .users => (db.users.filter (usersSelect self)).map Row.user
  | .courses => (db.courses.filter (coursesSelect self)).map Row.course
  | .enrollments =>
      (db.enrollments.filter (enrollmentsSelect db self)).map Row.enrollment
  | .reviews => (db.reviews.filter (reviewsSelect self)).map Row.review
  | .certificates =>
      (db.certificates.filter (certificatesSelect self)).map Row.certificate
  | .mentorRequests =>
      (db.mentor_requests.filter (mentorRequestsSelect self)).map Row.mentorRequest

/-- A write request against the guarded store: the insert and update shapes
the application can issue on the claim-relevant tables.  Updates carry the row
key and the column assignment; the completion update carries the fresh
certificate token consumed by the trigger.  `mentor_requests` has no `UPDATE`
or `DELETE` policy, so those requests exist here only to be denied. -/
inductive WriteReq where
  | insertUser : UserRow → WriteReq
  | insertCourse : Course → WriteReq
  | insertEnrollment : Enrollment → WriteReq
  | insertReview : ReviewRow → WriteReq
  | insertMentorRequest : MentorRequest → WriteReq
  | updateUser : Nat → (UserRow → UserRow) → WriteReq
  | updateCourse : Nat → (Course → Course) → WriteReq
  | completeEnrollment : Nat → String → WriteReq
  | updateMentorRequest : Nat → (MentorRequest → MentorRequest) → WriteReq
  | deleteMentorRequest : Nat → WriteReq

/-- The write predicate of each request, from the final schema's policies:

  * insert into `users`: "Users can insert own profile", `WITH CHECK
    (auth.uid() = id)`;
  * insert into `courses`: "Mentors can create courses", `WITH CHECK (EXISTS
    (SELECT 1 FROM users WHERE id = auth.uid() AND role IN ('mentor',
    'admin')))` — note it constrains only the acting principal's role, not the
    row's `mentor_id`;
  * insert into `enrollments`: "Students can enroll in courses", `WITH CHECK
    (student_id = auth.uid())`;
  * insert into `reviews`: "Students can create reviews for enrolled courses",
    `WITH CHECK (student_id = auth.uid() AND EXISTS (SELECT 1 FROM enrollments
    WHERE student_id = auth.uid() AND course_id = reviews.course_id AND
    is_completed = true))`;
  * insert into `mentor_requests`: "Students can create mentor requests",
    `WITH CHECK (student_id = auth.uid())` — `status`, `reviewed_by`,
    `reviewed_at` are unconstrained;
  * update of `users`: "Users can update own profile", `USING (auth.uid() =
    id) WITH CHECK (auth.uid() = id)` — no column is restricted;
  * update of `courses`: "Mentors can update own courses", `USING (mentor_id =
    auth.uid())`; with no `WITH CHECK`, the `USING` expression also checks the
    written row;
  * update of `enrollments` (the completion update): "Mentors can update
    enrollments for their courses", `USING (EXISTS (SELECT 1 FROM courses
    WHERE id = course_id AND mentor_id = auth.uid()))`, likewise rechecked on
    the written row, whose `course_id` the completion update leaves unchanged;
  * update or delete of `mentor_requests`: no policy exists, so row-level
    security denies by default. -/
def writeCheck (db : DB) (self : Nat) : WriteReq → Bool
  | .insertUser r => r.id == self
  | .insertCourse _ =>
      db.users.any (fun u =>
        u.id == self && (u.role == Role.mentor || u.role == Role.admin))
  | .insertEnrollment r => r.student_id == some self
  | .insertReview r =>
      r.student_id == some self &&
      db.enrollments.any (fun e =>
        e.student_id == some self && e.course_id == r.course_id && e.is_completed)
  | .insertMentorRequest r => r.student_id == some self
  | .updateUser uid f =>
      (db.users.filter (fun u => u.id == uid)).all (fun u =>
        u.id == self && (f u).id == self)
  | .updateCourse cid f =>
      (db.courses.filter (fun c => c.id == cid)).all (fun c =>
        c.mentor_id == some self && (f c).mentor_id == some self)
  | .completeEnrollment eid _ =>
      (db.enrollments.filter (fun e => e.id == eid)).all (fun e =>
        db.courses.any (fun c => some c.id == e.course_id && c.mentor_id == some self))
  | .updateMentorRequest _ _ => false
  | .deleteMentorRequest _ => false

/-- The effect of a permitted write: inserts append the row, keyed updates
rewrite the matching rows, and the completion update runs `completionUpdate`
(the `UPDATE` plus its `AFTER UPDATE` trigger). -/
def applyWrite (db : DB) : WriteReq → DB
  | .insertUser r => { db with users := db.users ++ [r] }
  | .insertCourse r => { db with courses := db.courses ++ [r] }
  | .insertEnrollment r => { db with enrollments := db.enrollments ++ [r] }
  | .insertReview r => { db with reviews := db.reviews ++ [r] }
  | .insertMentorRequest r =>
      { db with mentor_requests := db.mentor_requests ++ [r] }
  | .updateUser uid f =>
      { db with users := db.users.map (fun u => if u.id == uid then f u else u) }
  | .updateCourse cid f =>
      { db with courses := db.courses.map (fun c => if c.id == cid then f c else c) }
  | .completeEnrollment eid fresh => completionUpdate eid fresh db
  | .updateMentorRequest i f =>
      { db with mentor_requests :=
          db.mentor_requests.map (fun m => if m.id == i then f m else m) }
  | .deleteMentorRequest i =>
      { db with mentor_requests := db.mentor_requests.filter (fun m => !(m.id == i)) }

/-- The one failure a denied write surfaces. -/
inductive PermErr where
  | permissionDenied
deriving DecidableEq, Repr

/-- Modelled from the spec: the engine executing writes is the external
managed store; per the spec each write runs atomically with its
access-control predicate and "a denied write fails with a permission error" —
so a permitted request commits `applyWrite` and a denied request returns the
explicit error, the store keeping the caller's state `db` untouched. -/
def runWrite (db : DB) (self : Nat) (w : WriteReq) : Except PermErr DB :=
  if writeCheck db self w then Except.ok (applyWrite db w)
  else Except.error PermErr.permissionDenied

/-! ## Arithmetic facts about the level formula -/

/-- On nonnegative arguments Postgres's truncating division agrees with the
spec's mathematical floor, and the `+ 1` keeps the level at least 1, so the
`max` in the spec formula is absorbed. -/
lemma tdiv_level_eq_max (x : Int) (hx : 0 ≤ x) :
    Int.tdiv x 100 + 1 = max 1 (Int.fdiv x 100 + 1) := by
  have h1 : Int.tdiv x 100 = x / 100 := Int.tdiv_eq_ediv hx (by norm_num)
  have h2 : Int.fdiv x 100 = x / 100 := Int.fdiv_eq_ediv x (by norm_num)
  have h3 : 0 ≤ x / 100 := Int.ediv_nonneg hx (by norm_num)
  rw [h1, h2, max_eq_right (by omega)]

/-- The earlier revision's `calculate_level` also matches the spec formula on
nonnegative XP. -/
lemma calculate_level_eq_spec (x : Int) (hx : 0 ≤ x) :
    calculate_level x = max 1 (Int.fdiv x 100 + 1) := by
  have h1 : Int.tdiv x 100 = x / 100 := Int.tdiv_eq_ediv hx (by norm_num)
  have h2 : Int.fdiv x 100 = x / 100 := Int.fdiv_eq_ediv x (by norm_num)
  unfold calculate_level
  rw [h1, h2]

/-! ## Pipeline lemmas -/

/-- A trigger firing never touches the enrollments table. -/
lemma award_enrollments (old new : Enrollment) (fresh : String) (db : DB) :
    (award_completion_xp old new fresh db).enrollments = db.enrollments := by
  unfold award_completion_xp
  split <;> rfl

/-- Nor does a fold of trigger firings. -/
lemma foldl_award_enrollments (fresh : String) (l : List Enrollment) (d : DB) :
    (l.foldl (fun d old =>
        award_completion_xp old { old with is_completed := true } fresh d) d).enrollments
      = d.enrollments := by
  induction l generalizing d with
  | nil => rfl
  | cons a l ih => rw [List.foldl_cons, ih, award_enrollments]

/-- The enrollments table after a completion update: exactly the rows with the
targeted id have their flag forced to true. -/
lemma completionUpdate_enrollments (eid : Nat) (fresh : String) (db : DB) :
    (completionUpdate eid fresh db).enrollments =
      db.enrollments.map (fun e =>
        if e.id == eid then { e with is_completed := true } else e) := by
  unfold completionUpdate
  rw [foldl_award_enrollments]

/-- Forcing the flag of an already-completed enrollment row changes nothing. -/
lemma complete_eq_self (e : Enrollment) (h : e.is_completed = true) :
    ({ e with is_completed := true } : Enrollment) = e := by
  cases e
  simp_all

/-- The trigger gate `NEW.is_completed = true AND OLD.is_completed = false`
rejects a firing whose old row was already completed. -/
lemma award_noop (old new : Enrollment) (fresh : String) (db : DB)
    (h : old.is_completed = true) :
    award_completion_xp old new fresh db = db := by
  unfold award_completion_xp
  rw [h]
  simp

/-- A fold of trigger firings over already-completed rows changes nothing. -/
lemma foldl_award_noop (fresh : String) (l : List Enrollment)
    (h : ∀ e ∈ l, e.is_completed = true) (d : DB) :
    l.foldl (fun d old =>
        award_completion_xp old { old with is_completed := true } fresh d) d = d := by
  induction l generalizing d with
  | nil => rfl
  | cons a l ih =>
    rw [List.foldl_cons, award_noop _ _ _ _ (h a (List.mem_cons_self a l))]
    exact ih (fun e he => h e (List.mem_cons_of_mem a he)) d

/-- The flag-forcing map is the identity when every targeted row is already
completed. -/
lemma map_complete_id (eid : Nat) (l : List Enrollment)
    (h : ∀ e ∈ l, e.id = eid → e.is_completed = true) :
    l.map (fun e => if e.id == eid then { e with is_completed := true } else e) = l := by
  induction l with
  | nil => rfl
  | cons a l ih =>
    rw [List.map_cons]
    have ha : (if a.id == eid then ({ a with is_completed := true } : Enrollment) else a) = a := by
      by_cases hc : a.id = eid
      · rw [if_pos (beq_iff_eq.mpr hc)]
        exact complete_eq_self a (h a (List.mem_cons_self a l) hc)
      · rw [if_neg (by simpa using hc)]
    rw [ha, ih (fun e he hid => h e (List.mem_cons_of_mem a he) hid)]

/-- A completion update whose targeted rows are all already completed is a
no-op on the whole store. -/
lemma completionUpdate_noop (eid : Nat) (fresh : String) (db : DB)
    (h : ∀ e ∈ db.enrollments, e.id = eid → e.is_completed = true) :
    completionUpdate eid fresh db = db := by
  unfold completionUpdate
  rw [foldl_award_noop fresh _ (fun e he => by
    have hm := List.mem_filter.mp he
    exact h e hm.1 (by simpa using hm.2))]
  rw [map_complete_id eid db.enrollments h]

/-- After a completion update every row with the targeted id is completed. -/
lemma completionUpdate_completed (eid : Nat) (fresh : String) (db : DB) :
    ∀ e ∈ (completionUpdate eid fresh db).enrollments, e.id = eid → e.is_completed = true := by
  intro e he hid
  rw [completionUpdate_enrollments] at he
  obtain ⟨a, _, rfl⟩ := List.mem_map.mp he
  by_cases hc : (a.id == eid) = true
  · rw [if_pos hc]
  · rw [if_neg hc] at hid
    exact absurd (beq_iff_eq.mpr hid) hc

/-- Re-running the completion update any number of further times after the
first changes nothing. -/
lemma foldl_completionUpdate_noop (eid : Nat) (ts : List String) (d : DB)
    (h : ∀ e ∈ d.enrollments, e.id = eid → e.is_completed = true) :
    ts.foldl (fun d t => completionUpdate eid t d) d = d := by
  induction ts generalizing d with
  | nil => rfl
  | cons t ts ih =>
    rw [List.foldl_cons, completionUpdate_noop eid t d h]
    exact ih d h

/-- Closed form of a completion update whose target is a single
not-yet-completed row: the flag flips, the student's counters are rewritten by
the SQL `UPDATE`, and one certificate is inserted per course row matching the
enrollment's `course_id`. -/
lemma completionUpdate_single (eid : Nat) (fresh : String) (db : DB) (e0 : Enrollment)
    (hE : db.enrollments.filter (fun e => e.id == eid) = [e0])
    (hF : e0.is_completed = false) :
    completionUpdate eid fresh db =
      { db with
          enrollments := db.enrollments.map (fun e =>
            if e.id == eid then { e with is_completed := true } else e),
          users := db.users.map (fun u =>
            if some u.id == e0.student_id then
              { u with
                  xp_points := u.xp_points + 50,
                  level_number := Int.tdiv (u.xp_points + 50) 100 + 1 }
            else u),
          certificates := db.certificates ++
            (db.courses.filter (fun c => some c.id == e0.course_id)).map (fun c =>
              { id := 0,
                student_id := e0.student_id,
                course_id := e0.course_id,
                mentor_id := c.mentor_id,
                certificate_id := "CERT-" ++ fresh }) } := by
  unfold completionUpdate
  rw [hE, List.foldl_cons, List.foldl_nil]
  unfold award_completion_xp
  rw [if_pos (by simp [hF])]

/-- Locating the awarded student after the `UPDATE users` map: the first row
matching the student id is rewritten by the assignment, which preserves ids. -/
lemma some_beq_some (x y : Nat) : (some x == some y) = (x == y) := rfl

lemma find?_map_update (sid : Nat) (g : UserRow → UserRow)
    (hg : ∀ u, (g u).id = u.id) (l : List UserRow) (u0 : UserRow)
    (hf : l.find? (fun u => u.id == sid) = some u0) :
    (l.map (fun u => if some u.id == some sid then g u else u)).find?
        (fun u => u.id == sid) = some (g u0) := by
  induction l with
  | nil => simp at hf
  | cons a l ih =>
    rw [List.map_cons]
    cases hcb : (a.id == sid) with
    | true =>
      simp only [List.find?_cons, hcb] at hf
      injection hf with h0
      subst h0
      rw [show (if some a.id == some sid then g a else a) = g a from
        if_pos (by rw [some_beq_some, hcb])]
      simp only [List.find?_cons, hg, hcb]
    | false =>
      simp only [List.find?_cons, hcb] at hf
      rw [show (if some a.id == some sid then g a else a) = a from
        if_neg (by rw [some_beq_some, hcb]; simp)]
      simp only [List.find?_cons, hcb]
      exact ih hf

/-- One trigger firing keeps every user's XP nonnegative and level equal to
the spec formula: untouched rows keep their invariant, and a row rewritten by
the SQL `UPDATE` gets `level_number = FLOOR((xp+50)/100)+1`, which equals
`max(1, floor((xp+50)/100)+1)` because the old XP was nonnegative. -/
lemma award_preserves_inv (old new : Enrollment) (fresh : String) (db : DB)
    (h : ∀ u ∈ db.users, 0 ≤ u.xp_points ∧ levelInvariant u) :
    ∀ u ∈ (award_completion_xp old new fresh db).users,
      0 ≤ u.xp_points ∧ levelInvariant u := by
  unfold award_completion_xp
  split
  · intro u hu
    simp only [List.mem_map] at hu
    obtain ⟨v, hv, rfl⟩ := hu
    by_cases hc : (some v.id == new.student_id) = true
    · rw [if_pos hc]
      obtain ⟨hv0, _⟩ := h v hv
      refine ⟨by simpa using by omega, ?_⟩
      show Int.tdiv (v.xp_points + 50) 100 + 1 = max 1 (Int.fdiv (v.xp_points + 50) 100 + 1)
      exact tdiv_level_eq_max _ (by omega)
    · rw [if_neg hc]
      exact h v hv
  · exact h

/-- Folded trigger firings preserve the same property. -/
lemma foldl_award_preserves (fresh : String) (l : List Enrollment) (d : DB)
    (h : ∀ u ∈ d.users, 0 ≤ u.xp_points ∧ levelInvariant u) :
    ∀ u ∈ (l.foldl (fun d old =>
        award_completion_xp old { old with is_completed := true } fresh d) d).users,
      0 ≤ u.xp_points ∧ levelInvariant u := by
  induction l generalizing d with
  | nil => exact h
  | cons a l ih =>
    rw [List.foldl_cons]
    exact ih _ (award_preserves_inv _ _ _ _ h)

/-! ## Concrete stores used by scenario theorems and witnesses -/

/-- Student user 1 with 80 XP at level 1, as in the spec's scenario. -/
def userA : UserRow :=
  { id := 1, email := "a@campus.edu", role := Role.student,
    year_of_study := 3, xp_points := 80, level_number := 1 }

/-- Mentor user 2. -/
def mentorM : UserRow :=
  { id := 2, email := "m@campus.edu", role := Role.mentor,
    year_of_study := 4, xp_points := 0, level_number := 1 }

/-- Active course 10 owned by mentor 2. -/
def course10 : Course := { id := 10, mentor_id := some 2, is_active := true }

/-- Enrollment 100 of student 1 in course 10, not yet completed. -/
def enroll100 : Enrollment :=
  { id := 100, student_id := some 1, course_id := some 10,
    completed_at := none, is_completed := false }

/-- The base store: two users, one course, one open enrollment. -/
def dbBase : DB :=
  { users := [userA, mentorM], courses := [course10], enrollments := [enroll100],
    reviews := [], certificates := [], mentor_requests := [] }

/-- The same store with enrollment 100 already completed. -/
def dbDone : DB :=
  { dbBase with enrollments := [{ enroll100 with is_completed := true }] }

/-- An enrollment whose `course_id` references no course row. -/
def enrollNull : Enrollment :=
  { id := 200, student_id := some 1, course_id := none,
    completed_at := none, is_completed := false }

/-- A store holding only student 1 and the course-less enrollment. -/
def dbNullCourse : DB :=
  { users := [userA], courses := [], enrollments := [enrollNull],
    reviews := [], certificates := [], mentor_requests := [] }

/-- A lone fresh student, id 7, with the schema's default XP and level. -/
def userFresh : UserRow :=
  { id := 7, email := "f@campus.edu", role := Role.student,
    year_of_study := 1, xp_points := 0, level_number := 1 }

/-- A store holding only the fresh student. -/
def dbFresh : DB :=
  { users := [userFresh], courses := [], enrollments := [],
    reviews := [], certificates := [], mentor_requests := [] }

/-- A course row whose `mentor_id` references student 1. -/
def rogueCourse : Course := { id := 11, mentor_id := some 1, is_active := true }

/-- A review that principal 1 may not insert: its `student_id` is user 99. -/
def outsiderReview : ReviewRow :=
  { id := 9, student_id := some 99, course_id := some 10,
    mentor_id := some 2, rating := 5 }

/-- A mentor request that arrives already approved and reviewed. -/
def approvedReq : MentorRequest :=
  { id := 5, student_id := some 1, status := MRStatus.approved,
    reviewed_by := some 1, reviewed_at := some 7 }

/-! ## Claim theorems -/

/-- C3: for every enrollment whose `is_completed` flag is already true,
re-submitting the completion update is a no-op for the progression state —
the whole store is unchanged, so no XP is awarded, no `level_number` changes
and no second certificate is inserted; the trigger fires only on the
false-to-true edge of the flag, never on the post-state alone. -/
theorem c3_resubmit_completion_noop (eid : Nat) (fresh : String) (db : DB)
    (h : ∀ e ∈ db.enrollments, e.id = eid → e.is_completed = true) :
    completionUpdate eid fresh db = db :=
  completionUpdate_noop eid fresh db h

theorem c3_resubmit_completion_noop_witness :
    (∀ e ∈ dbDone.enrollments, e.id = 100 → e.is_completed = true) ∧
    completionUpdate 100 "ZZ99QQ11" dbDone = dbDone :=
  ⟨by decide, c3_resubmit_completion_noop 100 "ZZ99QQ11" dbDone (by decide)⟩

/-- C5: the spec's scenario evaluated verbatim: the mentor of course 10
completes enrollment 100 of user 1, who holds 80 XP at level 1; the permitted
request commits a state with `xp_points = 130`, `level_number = 2`, and exactly
one new certificate row carrying the student's id and the course's mentor id. -/
theorem c5_completion_scenario :
    runWrite dbBase 2 (WriteReq.completeEnrollment 100 "AB12CD34") =
      Except.ok
        { dbBase with
            users := [{ userA with xp_points := 130, level_number := 2 }, mentorM],
            enrollments := [{ enroll100 with is_completed := true }],
            certificates := [{ id := 0, student_id := some 1, course_id := some 10,
                               mentor_id := some 2, certificate_id := "CERT-AB12CD34" }] } := by
  rfl

/-- C7 counterexample: enrollment 100 starts with `is_completed = false`; the
completion update flips the flag to true, yet the post-state's `completed_at`
is still unset, refuting the claim that the flag-flipping update also sets
`completed_at`. -/
theorem c7_counterexample :
    enroll100.is_completed = false ∧
    (completionUpdate 100 "AB12CD34" dbBase).enrollments =
      [{ enroll100 with is_completed := true }] ∧
    ({ enroll100 with is_completed := true } : Enrollment).completed_at = none := by
  refine ⟨rfl, rfl, rfl⟩

/-- C7 (amended): no operation of the completion pipeline writes
`completed_at` — the completion update leaves every enrollment's
`completed_at` exactly as it was, whether or not the flag flips. -/
theorem c7_amended_completed_at_untouched (eid : Nat) (fresh : String) (db : DB) :
    (completionUpdate eid fresh db).enrollments.map Enrollment.completed_at =
      db.enrollments.map Enrollment.completed_at := by
  rw [completionUpdate_enrollments, List.map_map]
  have hfun : (Enrollment.completed_at ∘ fun e =>
      if e.id == eid then { e with is_completed := true } else e) = Enrollment.completed_at := by
    funext e
    by_cases hc : (e.id == eid) = true
    · simp only [Function.comp_apply, if_pos hc]
    · simp only [Function.comp_apply, if_neg hc]
  rw [hfun]

/-- C2 counterexample: completing enrollment 200, whose `course_id` references
no existing course row, is not rolled back: the flag flips, user 1's XP rises
from 80 to 130 with the level recomputed, and zero certificate rows are
inserted — the certificate `INSERT ... SELECT` matches no course and raises no
error, so the partial "XP awarded but no certificate" state the claim rules
out is exactly what the pipeline commits. -/
theorem c2_counterexample :
    (completionUpdate 200 "FFFFFFFF" dbNullCourse).certificates = [] ∧
    (completionUpdate 200 "FFFFFFFF" dbNullCourse).users =
      [{ userA with xp_points := 130, level_number := 2 }] ∧
    (completionUpdate 200 "FFFFFFFF" dbNullCourse).enrollments =
      [{ enrollNull with is_completed := true }] := by
  refine ⟨rfl, rfl, rfl⟩

/-- C2 (amended): through the guarded interface the partial state stays
unreachable: a permitted completion update on a single not-yet-completed
enrollment row can only run because the update policy found a course row
matching the enrollment, and the commit then inserts one certificate per such
course row alongside the XP award — at least one, and exactly one when ids
are unique. -/
theorem c2_amended_award_carries_certificate (db : DB) (self eid : Nat)
    (fresh : String) (e0 : Enrollment) (db2 : DB)
    (hE : db.enrollments.filter (fun e => e.id == eid) = [e0])
    (hF : e0.is_completed = false)
    (hOk : runWrite db self (WriteReq.completeEnrollment eid fresh) = Except.ok db2) :
    1 ≤ (db.courses.filter (fun c => some c.id == e0.course_id)).length ∧
    db2.certificates.length =
      db.certificates.length +
        (db.courses.filter (fun c => some c.id == e0.course_id)).length := by
  unfold runWrite at hOk
  by_cases hw : writeCheck db self (WriteReq.completeEnrollment eid fresh) = true
  · rw [if_pos hw] at hOk
    injection hOk with hdb2
    subst hdb2
    simp only [writeCheck] at hw
    rw [hE] at hw
    simp only [List.all_cons, List.all_nil, Bool.and_true] at hw
    obtain ⟨c, hcmem, hcp⟩ := List.any_eq_true.mp hw
    rw [Bool.and_eq_true] at hcp
    constructor
    · have hcf : c ∈ db.courses.filter (fun c => some c.id == e0.course_id) :=
        List.mem_filter.mpr ⟨hcmem, hcp.1⟩
      have := List.length_pos.mpr (List.ne_nil_of_mem hcf)
      omega
    · show (applyWrite db (WriteReq.completeEnrollment eid fresh)).certificates.length = _
      simp only [applyWrite]
      rw [completionUpdate_single eid fresh db e0 hE hF]
      simp
  · rw [if_neg hw] at hOk
    exact absurd hOk (by simp)

theorem c2_amended_award_carries_certificate_witness :
    (dbBase.enrollments.filter (fun e => e.id == 100) = [enroll100]) ∧
    enroll100.is_completed = false ∧
    runWrite dbBase 2 (WriteReq.completeEnrollment 100 "AB12CD34") =
      Except.ok (completionUpdate 100 "AB12CD34" dbBase) ∧
    1 ≤ (dbBase.courses.filter (fun c => some c.id == enroll100.course_id)).length ∧
    (completionUpdate 100 "AB12CD34" dbBase).certificates.length =
      dbBase.certificates.length +
        (dbBase.courses.filter (fun c => some c.id == enroll100.course_id)).length :=
  ⟨by decide, rfl, rfl,
   (c2_amended_award_carries_certificate dbBase 2 100 "AB12CD34" enroll100
      (completionUpdate 100 "AB12CD34" dbBase) (by decide) rfl rfl).1,
   (c2_amended_award_carries_certificate dbBase 2 100 "AB12CD34" enroll100
      (completionUpdate 100 "AB12CD34" dbBase) (by decide) rfl rfl).2⟩

/-- C4: N serialized completion requests against one enrollment, N ≥ 1 — the
store serializes concurrent transactions, so concurrent requests execute in
some order `t0 :: ts` — award exactly once: only the first request observes
the false-to-true edge, the rest hit the trigger gate as no-ops, and the
final state holds exactly one +50 XP award for the student and exactly one
new certificate, however many requests were fired. -/
theorem c4_at_most_once_award (db : DB) (eid : Nat) (t0 : String) (ts : List String)
    (e0 : Enrollment) (sid : Nat) (u0 : UserRow) (c0 : Course)
    (hE : db.enrollments.filter (fun e => e.id == eid) = [e0])
    (hF : e0.is_completed = false)
    (hs : e0.student_id = some sid)
    (hu : db.users.find? (fun u => u.id == sid) = some u0)
    (hc : db.courses.filter (fun c => some c.id == e0.course_id) = [c0]) :
    (((t0 :: ts).foldl (fun d t => completionUpdate eid t d) db).users.find?
        (fun u => u.id == sid)).map UserRow.xp_points = some (u0.xp_points + 50) ∧
    ((t0 :: ts).foldl (fun d t => completionUpdate eid t d) db).certificates.length =
      db.certificates.length + 1 := by
  rw [List.foldl_cons,
    foldl_completionUpdate_noop eid ts _ (completionUpdate_completed eid t0 db)]
  rw [completionUpdate_single eid t0 db e0 hE hF]
  constructor
  · show ((db.users.map (fun u =>
        if some u.id == e0.student_id then
          { u with
              xp_points := u.xp_points + 50,
              level_number := Int.tdiv (u.xp_points + 50) 100 + 1 }
        else u)).find? (fun u => u.id == sid)).map UserRow.xp_points = _
    rw [hs]
    rw [find?_map_update sid
      (fun u => { u with
          xp_points := u.xp_points + 50,
          level_number := Int.tdiv (u.xp_points + 50) 100 + 1 })
      (fun u => rfl) db.users u0 hu]
    rfl
  · show (db.certificates ++ _).length = _
    rw [List.length_append, hc]
    rfl

theorem c4_at_most_once_award_witness :
    (dbBase.enrollments.filter (fun e => e.id == 100) = [enroll100]) ∧
    ((("W1QQ" : String) :: ["W2QQ", "W3QQ"]).foldl
        (fun d t => completionUpdate 100 t d) dbBase).certificates.length =
      dbBase.certificates.length + 1 :=
  ⟨by decide,
   (c4_at_most_once_award dbBase 100 "W1QQ" ["W2QQ", "W3QQ"] enroll100 1 userA course10
      (by decide) rfl rfl (by decide) (by decide)).2⟩

/-- C1 (amended): the level formula `level_number = max(1,
floor(xp_points/100)+1)` is an invariant of the progression pipeline: if every
user has nonnegative XP and satisfies it, then after any completion update
every user still does.  It is not an invariant of every permitted operation —
see the counterexample: the profile-update policy lets a user overwrite its
own `xp_points` and `level_number` freely. -/
theorem c1_amended_pipeline_preserves_level (eid : Nat) (fresh : String) (db : DB)
    (h : ∀ u ∈ db.users, 0 ≤ u.xp_points ∧ levelInvariant u) :
    ∀ u ∈ (completionUpdate eid fresh db).users, 0 ≤ u.xp_points ∧ levelInvariant u := by
  unfold completionUpdate
  exact foldl_award_preserves fresh _ _ h

theorem c1_amended_pipeline_preserves_level_witness :
    (∀ u ∈ dbBase.users, 0 ≤ u.xp_points ∧ levelInvariant u) ∧
    (∀ u ∈ (completionUpdate 100 "AB12CD34" dbBase).users,
      0 ≤ u.xp_points ∧ levelInvariant u) :=
  ⟨by decide, c1_amended_pipeline_preserves_level 100 "AB12CD34" dbBase (by decide)⟩

/-- C1 counterexample: user 7 starts at 0 XP, level 1, satisfying the
formula; the users-update policy permits principal 7 to set its own
`xp_points` to 1000 while leaving `level_number` at 1 — the write succeeds
with no error and the resulting user violates `level_number = max(1,
floor(xp_points/100)+1)`, so the formula does not hold after every permitted
operation that mutates XP. -/
theorem c1_counterexample :
    levelInvariant userFresh ∧
    runWrite dbFresh 7 (WriteReq.updateUser 7 (fun u => { u with xp_points := 1000 })) =
      Except.ok { dbFresh with users := [{ userFresh with xp_points := 1000 }] } ∧
    ¬ levelInvariant { userFresh with xp_points := 1000 } := by
  refine ⟨by decide, rfl, by decide⟩

/-- C6 counterexample: principal 2, a mentor, is permitted to create a course
whose `mentor_id` references user 1 — a student — because the create policy
checks only the acting principal's role and never constrains the row's
`mentor_id`, refuting the claim that every creatable course references a
mentor or admin. -/
theorem c6_counterexample :
    runWrite dbBase 2 (WriteReq.insertCourse rogueCourse) =
      Except.ok { dbBase with courses := [course10, rogueCourse] } ∧
    rogueCourse.mentor_id = some userA.id ∧
    userA ∈ dbBase.users ∧
    userA.role = Role.student := by
  refine ⟨rfl, rfl, by decide, rfl⟩

/-- C6 (amended): a course create is permitted exactly when the acting
principal's role is mentor or admin; the policy places no constraint on the
written row, in particular none on its `mentor_id`. -/
theorem c6_amended_create_gated_on_principal_role (db : DB) (self : Nat) (row : Course) :
    writeCheck db self (WriteReq.insertCourse row) = true ↔
      ∃ u ∈ db.users, u.id = self ∧ (u.role = Role.mentor ∨ u.role = Role.admin) := by
  simp [writeCheck, List.any_eq_true]

/-- C8: a review insert by principal `self` commits (appending exactly the
given row) iff the row's `student_id` is `self` and some enrollment of `self`
in the review's course is completed; in every other case — in particular for a
student with no enrollment in that course — it fails, the insert policy
being `student_id = auth.uid() AND EXISTS (completed enrollment)`. -/
theorem c8_review_gating (db : DB) (self : Nat) (r : ReviewRow) :
    runWrite db self (WriteReq.insertReview r) =
        Except.ok { db with reviews := db.reviews ++ [r] } ↔
      (r.student_id = some self ∧
        ∃ e ∈ db.enrollments, e.student_id = some self ∧
          e.course_id = r.course_id ∧ e.is_completed = true) := by
  have hiff : writeCheck db self (WriteReq.insertReview r) = true ↔
      (r.student_id = some self ∧
        ∃ e ∈ db.enrollments, e.student_id = some self ∧
          e.course_id = r.course_id ∧ e.is_completed = true) := by
    simp [writeCheck, List.any_eq_true, and_assoc]
  constructor
  · intro hk
    by_cases hw : writeCheck db self (WriteReq.insertReview r) = true
    · exact hiff.mp hw
    · rw [runWrite, if_neg hw] at hk
      exact absurd hk (by simp)
  · intro hr
    rw [runWrite, if_pos (hiff.mpr hr)]
    rfl

/-- C9 (spec-modelled store semantics, policies from the schema): denial is
asymmetric — a read never fails and simply omits every row its table's read
predicate denies, so a fully denied read is the empty result set, while a
write denied by its policy fails with the explicit permission error and, the
error carrying no state, leaves the store exactly as it was. -/
theorem c9_denial_asymmetry (db : DB) (self : Nat) :
    (∀ (t : Table) (r : Row), r ∈ runSelect db self t → readPermit db self t r = true) ∧
    (∀ w : WriteReq, writeCheck db self w = false →
      runWrite db self w = Except.error PermErr.permissionDenied) := by
  constructor
  · intro t r hr
    cases t <;>
      · simp only [runSelect] at hr
        obtain ⟨x, hx, rfl⟩ := List.mem_map.mp hr
        have hp := (List.mem_filter.mp hx).2
        simpa [readPermit] using hp
  · intro w hw
    rw [runWrite, if_neg (by simp [hw])]

theorem c9_denial_asymmetry_witness :
    readPermit dbBase 2 Table.enrollments (Row.enrollment enroll100) = true ∧
    writeCheck dbBase 1 (WriteReq.insertReview outsiderReview) = false ∧
    runWrite dbBase 1 (WriteReq.insertReview outsiderReview) =
      Except.error PermErr.permissionDenied :=
  ⟨(c9_denial_asymmetry dbBase 2).1 Table.enrollments (Row.enrollment enroll100)
      (by decide),
   by decide,
   (c9_denial_asymmetry dbBase 1).2 (WriteReq.insertReview outsiderReview) (by decide)⟩

/-- C10 counterexample: the mentor-request insert policy checks only
`student_id = auth.uid()`, so principal 1 may create a request that is already
approved, with `reviewed_by` and `reviewed_at` filled in — a row created
through the guarded interface need not have status pending nor unset review
fields. -/
theorem c10_counterexample :
    runWrite dbBase 1 (WriteReq.insertMentorRequest approvedReq) =
      Except.ok { dbBase with mentor_requests := [approvedReq] } ∧
    approvedReq.status = MRStatus.approved ∧
    approvedReq.reviewed_by = some 1 ∧
    approvedReq.reviewed_at = some 7 := by
  refine ⟨rfl, rfl, rfl, rfl⟩

/-- C10 (amended): `mentor_requests` rows are immutable through the guarded
interface — the table has no update or delete policy, so every update or
delete request is denied with a permission error and a row never changes
after creation; an insert is permitted exactly when the row's `student_id` is
the acting principal, with no constraint on `status`, `reviewed_by` or
`reviewed_at`, so only rows inserted with the column defaults are pending,
and such rows stay pending forever. -/
theorem c10_amended_requests_immutable (db : DB) (self : Nat) :
    (∀ (i : Nat) (f : MentorRequest → MentorRequest),
      runWrite db self (WriteReq.updateMentorRequest i f) =
        Except.error PermErr.permissionDenied) ∧
    (∀ i : Nat,
      runWrite db self (WriteReq.deleteMentorRequest i) =
        Except.error PermErr.permissionDenied) ∧
    (∀ r : MentorRequest,
      runWrite db self (WriteReq.insertMentorRequest r) =
          Except.ok { db with mentor_requests := db.mentor_requests ++ [r] } ↔
        r.student_id = some self) := by
  refine ⟨fun i f => rfl, fun i => rfl, fun r => ?_⟩
  have hiff : writeCheck db self (WriteReq.insertMentorRequest r) = true ↔
      r.student_id = some self := by
    simp [writeCheck]
  constructor
  · intro hk
    by_cases hw : writeCheck db self (WriteReq.insertMentorRequest r) = true
    · exact hiff.mp hw
    · rw [runWrite, if_neg hw] at hk
      exact absurd hk (by simp)
  · intro hr
    rw [runWrite, if_pos (hiff.mpr hr)]
    rfl

end SeniorSkill
